import Mathlib

/-!
Verification of the EvoViT adapter backbone (`mmdet_custom/models/backbones/evovit_adapter.py`).

The development shallowly embeds the backbone's construction and forward
orchestration.  Tensors handled only structurally (added, concatenated,
normalized, passed to external modules) are kept abstract; the parts of the
code whose claims are about concrete data (token-axis slicing, shape
arithmetic of `view` / `ConvTranspose2d`, bicubic resampling of the
positional embedding) are embedded concretely.
-/

namespace EvoViT

/-! ## Token-axis concatenation and slicing (forward, lines 106 and 127-129)

`torch.cat([c2, c3, c4], dim=1)` concatenates along the token axis; per batch
row this is list append.  `c[:, a:b, :]` keeps tokens `a..b-1`;
`c[:, a:, :]` drops the first `a` tokens. -/

/-- `torch.cat([c2, c3, c4], dim=1)` on one batch row. -/
def catDim1 {α : Type} (c2 c3 c4 : List α) : List α := c2 ++ c3 ++ c4

/-- `c[:, a:b, :]` on one batch row. -/
def sliceTok {α : Type} (c : List α) (a b : Nat) : List α := (c.drop a).take (b - a)

/-- `c[:, a:, :]` on one batch row. -/
def sliceFromTok {α : Type} (c : List α) (a : Nat) : List α := c.drop a

/-- Lines 127-129 of `forward`: re-split the fused ConvSequence.  Line 127
slices the first `len2` tokens; line 128 starts at the (re-bound) `c2`'s
length and takes `len3` tokens; line 129 drops the first
`c2.size(1) + c3.size(1)` tokens. -/
def splitConvSeq {α : Type} (c : List α) (len2 len3 : Nat) :
    List α × List α × List α :=
  let c2 := sliceTok c 0 len2
  let c3 := sliceTok c c2.length (c2.length + len3)
  let c4 := sliceFromTok c (c2.length + c3.length)
  (c2, c3, c4)

/-! ## Interaction-index partitions (forward, lines 119-124)

Each loop iteration takes `indexes = self.interaction_indexes[i]` and runs the
block slice `self.blocks[indexes[0] : indexes[-1] + 1]`.  Python slicing
clamps the stop index to the list length. -/

/-- `indexes[0]` of one stage's index list. -/
def stageLo (s : List Nat) : Nat := s.headD 0

/-- `indexes[-1]` of one stage's index list. -/
def stageHi (s : List Nat) : Nat := s.getLastD 0

/-- Number of blocks a stage runs: `indexes[-1] + 1 - indexes[0]`. -/
def stageCount (s : List Nat) : Nat := stageHi s + 1 - stageLo s

/-- The block indices actually run by one stage out of `n` blocks:
`blocks[indexes[0] : indexes[-1] + 1]` (Python slicing clamps at `n`). -/
def stageSlice (n : Nat) (s : List Nat) : List Nat :=
  List.range' (stageLo s) (min (stageHi s + 1) n - stageLo s)

/-- All block indices run by the interaction loop, in loop order. -/
def runBlockList (n : Nat) : List (List Nat) → List Nat
  | [] => []
  | s :: rest => stageSlice n s ++ runBlockList n rest

/-- The stage lists describe contiguous, non-overlapping, order-preserving
ranges starting at `lo` and ending exactly at block `n - 1`. -/
def chainFrom : Nat → List (List Nat) → Nat → Bool
  | lo, [], n => lo == n
  | lo, s :: rest, n =>
    (!s.isEmpty) && (stageLo s == lo) && decide (stageLo s ≤ stageHi s) &&
      chainFrom (stageHi s + 1) rest n

/-- A valid partition of the block list `[0, n)` into contiguous,
non-overlapping, order-preserving stage ranges with no gaps. -/
def validPartition (ii : List (List Nat)) (n : Nat) : Bool := chainFrom 0 ii n

theorem chainFrom_spec (n : Nat) :
    ∀ (ii : List (List Nat)) (lo : Nat), chainFrom lo ii n = true →
      runBlockList n ii = List.range' lo (n - lo) ∧
      (ii.map stageCount).sum + lo = n ∧ lo ≤ n := by
  intro ii
  induction ii with
  | nil =>
    intro lo h
    simp only [chainFrom, beq_iff_eq] at h
    subst h
    simp [runBlockList]
  | cons s rest ih =>
    intro lo h
    simp only [chainFrom, Bool.and_eq_true, beq_iff_eq, decide_eq_true_eq,
      Bool.not_eq_true'] at h
    obtain ⟨⟨⟨hne, hlo⟩, hle⟩, hrest⟩ := h
    obtain ⟨ih1, ih2, ih3⟩ := ih (stageHi s + 1) hrest
    have hlon : lo ≤ n := by omega
    have hmin : min (stageHi s + 1) n = stageHi s + 1 := by omega
    constructor
    · have e1 : stageSlice n s = List.range' lo (stageHi s + 1 - lo) := by
        unfold stageSlice
        rw [hmin, hlo]
      have e2 : List.range' lo (stageHi s + 1 - lo) ++
          List.range' (stageHi s + 1) (n - (stageHi s + 1)) =
          List.range' lo (n - lo) := by
        have h3 := List.range'_append lo (stageHi s + 1 - lo)
          (n - (stageHi s + 1)) 1
        rw [show lo + 1 * (stageHi s + 1 - lo) = stageHi s + 1 from by omega,
          show n - (stageHi s + 1) + (stageHi s + 1 - lo) = n - lo from by
            omega] at h3
        exact h3
      calc runBlockList n (s :: rest)
          = stageSlice n s ++ runBlockList n rest := rfl
        _ = List.range' lo (stageHi s + 1 - lo) ++
              List.range' (stageHi s + 1) (n - (stageHi s + 1)) := by
            rw [e1, ih1]
        _ = List.range' lo (n - lo) := e2
    · constructor
      · have : stageCount s = stageHi s + 1 - lo := by
          unfold stageCount
          omega
        simp only [List.map_cons, List.sum_cons, this]
        omega
      · exact hlon

/-! ## Shape arithmetic of the split-and-reshape step (forward, lines 131-134)

`t.transpose(1, 2).view(bs, dim, h, w)` splits a token axis of length `n`
into spatial axes `(h, w)`; it succeeds exactly when `n = h * w`.
`self.up = nn.ConvTranspose2d(embed_dim, embed_dim, 2, 2)` maps spatial size
`i` to `(i - 1) * 2 + 2 = 2 * i`. -/

/-- `view` splitting a token axis of length `len` into `(h, w)`. -/
def viewTokenGrid (len h w : Nat) : Option (Nat × Nat) :=
  if len = h * w then some (h, w) else none

/-- Output spatial extent of `nn.ConvTranspose2d` with kernel `k`,
stride `s`, padding `p` on an input extent `i`. -/
def convTransposeOut (i k s p : Nat) : Nat := (i - 1) * s + k - 2 * p

/-- Spatial size produced by `self.up` (kernel 2, stride 2, no padding). -/
def upOut (hw : Nat × Nat) : Nat × Nat :=
  (convTransposeOut hw.1 2 2 0, convTransposeOut hw.2 2 2 0)

/-- Lines 131-134 of `forward` at shape level: reshape the three slices to
`(2H, 2W)`, `(H, W)`, `(H/2, W/2)` and produce the fourth level by the
learned 2x transposed convolution of the finest reshaped level.  Returns the
spatial sizes `(c1, c2, c3, c4)`. -/
def splitReshapeShapes (H W len2 len3 len4 : Nat) :
    Option ((Nat × Nat) × (Nat × Nat) × (Nat × Nat) × (Nat × Nat)) :=
  match viewTokenGrid len2 (H * 2) (W * 2), viewTokenGrid len3 H W,
      viewTokenGrid len4 (H / 2) (W / 2) with
  | some s2, some s3, some s4 => some (upOut s2, s2, s3, s4)
  | _, _, _ => none

lemma splitConvSeq_cat {α : Type} (c2 c3 c4 : List α) :
    splitConvSeq (catDim1 c2 c3 c4) c2.length c3.length = (c2, c3, c4) := by
  have hc : catDim1 c2 c3 c4 = c2 ++ (c3 ++ c4) := by simp [catDim1]
  have h1 : sliceTok (catDim1 c2 c3 c4) 0 c2.length = c2 := by
    rw [sliceTok, hc, List.drop_zero, Nat.sub_zero]
    exact List.take_left _ _
  have h2 : sliceTok (catDim1 c2 c3 c4) c2.length (c2.length + c3.length)
      = c3 := by
    rw [sliceTok, hc, List.drop_left, Nat.add_sub_cancel_left]
    exact List.take_left _ _
  have h3 : sliceFromTok (catDim1 c2 c3 c4) (c2.length + c3.length) = c4 := by
    rw [sliceFromTok, catDim1, ← List.length_append, List.drop_left]
  simp only [splitConvSeq, h1, h2, h3]

/-- **C3**: concatenating the three per-level sequences along the token axis,
slicing back at offsets `[0, len2)`, `[len2, len2+len3)`, `[len2+len3, end)`
and re-concatenating the slices in order reproduces the concatenated sequence
exactly, and the three slice lengths sum to the original length. -/
theorem claim_C3_convseq_roundtrip {α : Type} (c2 c3 c4 : List α) :
    (splitConvSeq (catDim1 c2 c3 c4) c2.length c3.length).1 ++
      (splitConvSeq (catDim1 c2 c3 c4) c2.length c3.length).2.1 ++
      (splitConvSeq (catDim1 c2 c3 c4) c2.length c3.length).2.2 =
      catDim1 c2 c3 c4 ∧
    (splitConvSeq (catDim1 c2 c3 c4) c2.length c3.length).1.length +
      (splitConvSeq (catDim1 c2 c3 c4) c2.length c3.length).2.1.length +
      (splitConvSeq (catDim1 c2 c3 c4) c2.length c3.length).2.2.length =
      (catDim1 c2 c3 c4).length := by
  rw [splitConvSeq_cat]
  exact ⟨rfl, by simp [catDim1]; omega⟩

/-- **C2**: when patch embedding yields a token grid of `H = 20`, `W = 20`
(so the per-level token counts are `40*40`, `20*20`, `10*10`), the
split-and-reshape step produces conv-derived levels of spatial sizes
`(40,40)`, `(20,20)`, `(10,10)` and the fourth level produced by the learned
2x transposed convolution has spatial size `(80,80)`. -/
theorem claim_C2_pyramid_shapes (H W len2 len3 len4 : Nat)
    (hH : H = 20) (hW : W = 20)
    (h2 : len2 = (H * 2) * (W * 2)) (h3 : len3 = H * W)
    (h4 : len4 = (H / 2) * (W / 2)) :
    splitReshapeShapes H W len2 len3 len4 =
      some ((80, 80), (40, 40), (20, 20), (10, 10)) := by
  subst hH hW h2 h3 h4
  rfl

/-- Witness for C2 at `H = W = 20`. -/
theorem claim_C2_pyramid_shapes_witness :
    (20 : Nat) = 20 ∧ (1600 : Nat) = (20 * 2) * (20 * 2) ∧
    (400 : Nat) = 20 * 20 ∧ (100 : Nat) = (20 / 2) * (20 / 2) ∧
    splitReshapeShapes 20 20 1600 400 100 =
      some ((80, 80), (40, 40), (20, 20), (10, 10)) :=
  ⟨rfl, by norm_num, by norm_num, by norm_num,
    claim_C2_pyramid_shapes 20 20 1600 400 100 rfl rfl (by norm_num)
      (by norm_num) (by norm_num)⟩

/-! ## Positional-embedding resampling (`_get_pos_embed`, lines 82-87)

`F.interpolate(mode='bicubic', align_corners=False)` is embedded in exact
rational arithmetic following the framework's cubic-convolution kernel with
`A = -3/4`: the source coordinate of output pixel `dst` out of `outN` is
`inN/outN * (dst + 1/2) - 1/2`, and each output value is a 4x4 cubic
convolution of border-clamped input samples.  The pretrained grid has
`pretrain_size/16` tokens per side; the result is flattened back to a token
sequence of one channel vector per output grid cell. -/

/-- Cubic convolution kernel on `[0,1]` with `A = -3/4`:
`((A+2)x - (A+3))x^2 + 1`. -/
def cubicConvolution1 (x : ℚ) : ℚ := ((5 / 4) * x - 9 / 4) * x ^ 2 + 1

/-- Cubic convolution kernel on `[1,2]` with `A = -3/4`:
`((Ax - 5A)x + 8A)x - 4A`. -/
def cubicConvolution2 (x : ℚ) : ℚ :=
  (((-3 / 4) * x + 15 / 4) * x - 6) * x + 3

/-- The four cubic upsampling coefficients at fractional offset `t`. -/
def cubicCoeffs (t : ℚ) : ℚ × ℚ × ℚ × ℚ :=
  (cubicConvolution2 (t + 1), cubicConvolution1 t,
    cubicConvolution1 (1 - t), cubicConvolution2 (2 - t))

/-- Source coordinate of output pixel `dst` (align_corners=False):
`inN/outN * (dst + 1/2) - 1/2`. -/
def sourceIndex (inN outN dst : Nat) : ℚ :=
  (inN : ℚ) / (outN : ℚ) * ((dst : ℚ) + 1 / 2) - 1 / 2

/-- Border-clamped access index into an axis of extent `n`. -/
def clampIdx (n : Nat) (i : ℤ) : Nat := (min (max i 0) ((n : ℤ) - 1)).toNat

/-- Border-clamped sample of a flattened `ps x ps` single-channel grid. -/
def gridAt (data : List ℚ) (ps : Nat) (i j : ℤ) : ℚ :=
  data.getD (clampIdx ps i * ps + clampIdx ps j) 0

/-- One-dimensional cubic convolution of four samples. -/
def cubicInterp1 (c : ℚ × ℚ × ℚ × ℚ) (v0 v1 v2 v3 : ℚ) : ℚ :=
  c.1 * v0 + c.2.1 * v1 + c.2.2.1 * v2 + c.2.2.2 * v3

/-- Bicubic value of output pixel `(i, j)` when resizing a `ps x ps` grid to
`H x W`. -/
def bicubicValue (data : List ℚ) (ps H W : Nat) (i j : Nat) : ℚ :=
  let ry := sourceIndex ps H i
  let rx := sourceIndex ps W j
  let iy : ℤ := ⌊ry⌋
  let ix : ℤ := ⌊rx⌋
  let cy := cubicCoeffs (ry - (iy : ℚ))
  let cx := cubicCoeffs (rx - (ix : ℚ))
  let row := fun (dy : ℤ) =>
    cubicInterp1 cx (gridAt data ps (iy + dy) (ix - 1))
      (gridAt data ps (iy + dy) ix) (gridAt data ps (iy + dy) (ix + 1))
      (gridAt data ps (iy + dy) (ix + 2))
  cubicInterp1 cy (row (-1)) (row 0) (row 1) (row 2)

/-- Per-channel data of a token-major positional embedding. -/
def channelData (pos : List (List ℚ)) (ch : Nat) : List ℚ :=
  pos.map fun v => v.getD ch 0

/-- `_get_pos_embed` (lines 82-87): reshape the flat pretrained grid to 2D
(`pretrain_size/16` per side), bicubic-resize to `(H, W)` without corner
alignment, and flatten back to a token-major sequence. -/
def getPosEmbed (pos : List (List ℚ)) (pretrainSize H W : Nat) :
    List (List ℚ) :=
  let ps := pretrainSize / 16
  let nch := (pos.headD []).length
  ((List.range H).map fun i =>
    (List.range W).map fun j =>
      (List.range nch).map fun ch =>
        bicubicValue (channelData pos ch) ps H W i j).flatten

/-- **C7**: for all target grid sizes `H`, `W`, the positional-embedding
resampler returns a sequence whose token-axis length is exactly `H * W`,
independent of `pretrain_size` and of the pretrained grid itself. -/
theorem claim_C7_posembed_length (pos : List (List ℚ))
    (pretrainSize H W : Nat) :
    (getPosEmbed pos pretrainSize H W).length = H * W := by
  simp only [getPosEmbed, List.length_flatten, List.map_map, Function.comp_def,
    List.length_map, List.map_const', List.length_range, List.sum_replicate,
    smul_eq_mul]

/-! ## The backbone module and its forward pass (lines 93-148)

Tensors are abstract (`T`); the external collaborators (spatial prior module,
patch embedding, transformer block slices inside the interaction layers,
deformable attention, framework tensor ops) are function-valued fields.  The
forward pass is instrumented with an event trace recording which collaborators
are invoked, and with the thread of classification-attention accumulator
values entering each interaction stage. -/

/-- Events recording which computations `forward` executes, in order. -/
inductive Ev where
  | deformInputsEv
  | spmForward
  | levelEmbedAdd
  | catLevels
  | patchEmbedEv
  | posResampleEv
  | interactionStage (i : Nat)
  | blockRun (j : Nat)
  | splitReshapeEv
  | tokenResample
  | finalNorm
deriving DecidableEq, Repr

/-- Runtime failures of `forward`. -/
inductive FwdErr where
  | stageWisePruneUnsupported
  | interactionIndexError
deriving DecidableEq, Repr

/-- Contract of one `InteractionBlockForEvo` layer (external collaborator):
it receives the stage's index list, the indices of the transformer-block
slice assigned to it, the classification token, the token sequence, the conv
sequence, the two precomputed deformable inputs, the grid size, the prune
ratio, the tradeoff, and the incoming attention accumulator, and returns the
updated classification token, token sequence, conv sequence and
accumulator. -/
def InteractFn (T : Type) : Type :=
  List Nat → List Nat → T → T → T → T → T → Nat → Nat → ℚ → ℚ → ℚ →
    T × T × T × ℚ

/-- State of the `EvoViTAdapter` module after construction. -/
structure Model (Img T : Type) where
  stage_wise_prune : Bool
  add_vit_feature : Bool
  interaction_indexes : List (List Nat)
  num_block : Nat
  num_classes : Nat
  pretrain_size : Nat × Nat
  level_embed0 : T
  level_embed1 : T
  level_embed2 : T
  spm : Img → T × T × T × T
  interactions : List (InteractFn T)
  up : T → T
  norm1 : T → T
  norm2 : T → T
  norm3 : T → T
  norm4 : T → T
  deform_inputs : Img → T × T
  patch_embed : Img → T × Nat × Nat
  shapeOf : T → Nat × Nat × Nat
  cls_token_expand : Nat → T
  pos_embed_cls : T
  pos_drop : T → T
  pos_resample : Nat → Nat → T
  prune_ratio : ℚ
  tradeoff : ℚ
  addT : T → T → T
  cat3 : T → T → T → T
  size1 : T → Nat
  sliceDim1 : T → Nat → Nat → T
  sliceFromDim1 : T → Nat → T
  reshapeSp : T → Nat → Nat → Nat → Nat → T
  interpScale : T → ℚ → T

variable {Img T : Type}

/-- `_add_level_embed` (lines 93-97): add one learned per-level bias to each
of the three coarser pyramid levels. -/
def addLevelEmbed (m : Model Img T) (c2 c3 c4 : T) : T × T × T :=
  (m.addT c2 m.level_embed0, m.addT c3 m.level_embed1, m.addT c4 m.level_embed2)

/-- Per-call values computed by lines 101-116 of `forward`, before the
interaction loop. -/
structure PreState (T : Type) where
  d1 : T
  d2 : T
  c1 : T
  c2e : T
  c3e : T
  c4e : T
  c : T
  xt : T
  cls : T
  H : Nat
  W : Nat
  bs : Nat
  n : Nat
  dim : Nat

/-- Lines 101-114 of `forward`: deformable inputs, spatial prior forward,
level embedding, concatenation, patch embedding, class token preparation and
positional-embedding addition. -/
def forwardPre (m : Model Img T) (x : Img) : PreState T :=
  let dd := m.deform_inputs x
  let s := m.spm x
  let l := addLevelEmbed m s.2.1 s.2.2.1 s.2.2.2
  let c := m.cat3 l.1 l.2.1 l.2.2
  let pe := m.patch_embed x
  let sh := m.shapeOf pe.1
  let cls := m.pos_drop (m.addT (m.cls_token_expand sh.1) m.pos_embed_cls)
  let pos := m.pos_resample pe.2.1 pe.2.2
  let xt := m.pos_drop (m.addT pe.1 pos)
  { d1 := dd.1, d2 := dd.2, c1 := s.1, c2e := l.1, c3e := l.2.1, c4e := l.2.2,
    c := c, xt := xt, cls := cls, H := pe.2.1, W := pe.2.2, bs := sh.1,
    n := sh.2.1, dim := sh.2.2 }

/-- The interaction loop (lines 119-124): `for i, layer in
enumerate(self.interactions)`, taking `indexes = self.interaction_indexes[i]`
(an index error if exhausted) and running the layer on the block slice
`blocks[indexes[0] : indexes[-1] + 1]`.  Returns the event trace, the thread
of accumulator values entering each stage (and the final one), and the final
`(cls_token, x, c, cls_attn)` state. -/
def runStages (m : Model Img T) (d1 d2 : T) (H W : Nat) :
    List (InteractFn T) → List (List Nat) → Nat → T × T × T × ℚ →
    List Ev × List ℚ × Except FwdErr (T × T × T × ℚ)
  | [], _, _, st => ([], [st.2.2.2], Except.ok st)
  | _ :: _, [], _, st =>
    ([], [st.2.2.2], Except.error FwdErr.interactionIndexError)
  | f :: fs, idxs :: rest, i, st =>
    let sl := stageSlice m.num_block idxs
    let st' := f idxs sl st.1 st.2.1 st.2.2.1 d1 d2 H W m.prune_ratio
      m.tradeoff st.2.2.2
    let r := runStages m d1 d2 H W fs rest (i + 1) st'
    (Ev.interactionStage i :: (sl.map Ev.blockRun ++ r.1),
      st.2.2.2 :: r.2.1, r.2.2)

/-- The interaction loop as invoked by `forward`, starting from the
freshly initialized accumulator `cls_attn = 0` (line 116). -/
def interactionResult (m : Model Img T) (x : Img) :
    List Ev × List ℚ × Except FwdErr (T × T × T × ℚ) :=
  let p := forwardPre m x
  runStages m p.d1 p.d2 p.H p.W m.interactions m.interaction_indexes 0
    (p.cls, p.xt, p.c, 0)

/-- Lines 127-134 of `forward`: slice the fused conv sequence back into the
three levels, reshape each to its spatial resolution, and produce the finest
level by the learned 2x transposed convolution added to the prior branch's
`c1`. -/
def splitAndReshape (m : Model Img T) (p : PreState T) (cF : T) :
    T × T × T × T :=
  let c2s := m.sliceDim1 cF 0 (m.size1 p.c2e)
  let c3s := m.sliceDim1 cF (m.size1 c2s) (m.size1 c2s + m.size1 p.c3e)
  let c4s := m.sliceFromDim1 cF (m.size1 c2s + m.size1 c3s)
  let c2r := m.reshapeSp c2s p.bs p.dim (p.H * 2) (p.W * 2)
  let c3r := m.reshapeSp c3s p.bs p.dim p.H p.W
  let c4r := m.reshapeSp c4s p.bs p.dim (p.H / 2) (p.W / 2)
  let c1r := m.addT (m.up c2r) p.c1
  (c1r, c2r, c3r, c4r)

/-- The conv-derived pyramid levels of a forward call: everything through
line 134, with no token-feature addition. -/
def convLevels (m : Model Img T) (x : Img) : Except FwdErr (T × T × T × T) :=
  (interactionResult m x).2.2.map fun st =>
    splitAndReshape m (forwardPre m x) st.2.2.1

/-- Events of the pre-interaction phase, in source order. -/
def preEvents : List Ev :=
  [Ev.deformInputsEv, Ev.spmForward, Ev.levelEmbedAdd, Ev.catLevels,
    Ev.patchEmbedEv, Ev.posResampleEv]

/-- `forward` (lines 99-148): the stage-wise-prune guard, the
pre-interaction phase, the interaction loop, split-and-reshape, the optional
token-feature addition, and the four per-level normalizations.  Returns the
event trace, the accumulator thread, and the four output feature maps. -/
def forward (m : Model Img T) (x : Img) :
    List Ev × List ℚ × Except FwdErr (List T) :=
  if m.stage_wise_prune then
    ([], [], Except.error FwdErr.stageWisePruneUnsupported)
  else
    let p := forwardPre m x
    let r := interactionResult m x
    match r.2.2 with
    | Except.error e => (preEvents ++ r.1, r.2.1, Except.error e)
    | Except.ok st =>
      let cl := splitAndReshape m p st.2.2.1
      if m.add_vit_feature then
        let x3 := m.reshapeSp st.2.1 p.bs p.dim p.H p.W
        let x1 := m.interpScale x3 4
        let x2 := m.interpScale x3 2
        let x4 := m.interpScale x3 (1 / 2)
        (preEvents ++ r.1 ++ [Ev.splitReshapeEv, Ev.tokenResample,
          Ev.finalNorm], r.2.1,
          Except.ok [m.norm1 (m.addT cl.1 x1), m.norm2 (m.addT cl.2.1 x2),
            m.norm3 (m.addT cl.2.2.1 x3), m.norm4 (m.addT cl.2.2.2 x4)])
      else
        (preEvents ++ r.1 ++ [Ev.splitReshapeEv, Ev.finalNorm], r.2.1,
          Except.ok [m.norm1 cl.1, m.norm2 cl.2.1, m.norm3 cl.2.2.1,
            m.norm4 cl.2.2.2])

/-- The block indices `forward` runs, read off the event trace. -/
def blockRunTrace (evs : List Ev) : List Nat :=
  evs.filterMap fun e =>
    match e with
    | Ev.blockRun j => some j
    | _ => none

/-- `forward` assigns no module attribute: the module state after a call is
the module state before it (there is no `self.<field> = ...` in `forward`). -/
def modelAfterForward (m : Model Img T) (_ : Img) : Model Img T := m

lemma blockRunTrace_append (l1 l2 : List Ev) :
    blockRunTrace (l1 ++ l2) = blockRunTrace l1 ++ blockRunTrace l2 := by
  simp [blockRunTrace]

lemma blockRunTrace_cons_stage (i : Nat) (l : List Ev) :
    blockRunTrace (Ev.interactionStage i :: l) = blockRunTrace l := rfl

lemma blockRunTrace_map_blockRun (sl : List Nat) :
    blockRunTrace (sl.map Ev.blockRun) = sl := by
  simp [blockRunTrace, List.filterMap_map, Function.comp_def]

lemma runStages_blockRunTrace (m : Model Img T) (d1 d2 : T) (H W : Nat) :
    ∀ (fs : List (InteractFn T)) (iis : List (List Nat)) (i : Nat)
      (st : T × T × T × ℚ), fs.length = iis.length →
      blockRunTrace (runStages m d1 d2 H W fs iis i st).1 =
        runBlockList m.num_block iis := by
  intro fs
  induction fs with
  | nil =>
    intro iis i st hlen
    cases iis with
    | nil => simp [runStages, blockRunTrace, runBlockList]
    | cons idxs rest => simp at hlen
  | cons f fs ih =>
    intro iis i st hlen
    cases iis with
    | nil => simp at hlen
    | cons idxs rest =>
      simp only [List.length_cons, Nat.add_right_cancel_iff] at hlen
      show blockRunTrace (Ev.interactionStage i ::
        ((stageSlice m.num_block idxs).map Ev.blockRun ++ _)) = _
      rw [blockRunTrace_cons_stage, blockRunTrace_append,
        blockRunTrace_map_blockRun, ih rest (i + 1) _ hlen]
      rfl

lemma runStages_attn_head (m : Model Img T) (d1 d2 : T) (H W : Nat)
    (fs : List (InteractFn T)) (iis : List (List Nat)) (i : Nat)
    (st : T × T × T × ℚ) :
    (runStages m d1 d2 H W fs iis i st).2.1.head? = some st.2.2.2 := by
  cases fs with
  | nil => rfl
  | cons f fs =>
    cases iis with
    | nil => rfl
    | cons idxs rest => rfl

lemma tokenResample_not_mem_runStages (m : Model Img T) (d1 d2 : T)
    (H W : Nat) :
    ∀ (fs : List (InteractFn T)) (iis : List (List Nat)) (i : Nat)
      (st : T × T × T × ℚ),
      Ev.tokenResample ∉ (runStages m d1 d2 H W fs iis i st).1 := by
  intro fs
  induction fs with
  | nil => intro iis i st; cases iis <;> simp [runStages]
  | cons f fs ih =>
    intro iis i st
    cases iis with
    | nil => simp [runStages]
    | cons idxs rest =>
      simp only [runStages, List.mem_cons, List.mem_append, List.mem_map]
      rintro (h | ⟨j, _, h⟩ | h)
      · exact Ev.noConfusion h
      · exact Ev.noConfusion h
      · exact ih rest (i + 1) _ h

/-- **C1**: when the interaction indexes form a valid partition of the block
list `[0, num_block)` (contiguous, non-overlapping, order-preserving, no
gaps) and there is one index list per interaction stage, the interaction loop
of `forward` runs every transformer block exactly once in ascending index
order, and the per-stage block counts `indexes[-1] + 1 - indexes[0]` sum to
`num_block`. -/
theorem claim_C1_interaction_partition (m : Model Img T) (x : Img)
    (hp : m.stage_wise_prune = false)
    (hlen : m.interactions.length = m.interaction_indexes.length)
    (hv : validPartition m.interaction_indexes m.num_block = true) :
    blockRunTrace (forward m x).1 = List.range m.num_block ∧
    (m.interaction_indexes.map stageCount).sum = m.num_block := by
  obtain ⟨hrun, hsum, -⟩ :=
    chainFrom_spec m.num_block m.interaction_indexes 0 hv
  refine ⟨?_, by omega⟩
  have htr : blockRunTrace (interactionResult m x).1 =
      runBlockList m.num_block m.interaction_indexes :=
    runStages_blockRunTrace m _ _ _ _ m.interactions m.interaction_indexes
      0 _ hlen
  have hrange : runBlockList m.num_block m.interaction_indexes =
      List.range m.num_block := by
    rw [hrun, List.range_eq_range', Nat.sub_zero]
  rcases hcase : (interactionResult m x).2.2 with e | st
  · have htrace : (forward m x).1 = preEvents ++ (interactionResult m x).1 :=
      by simp [forward, hp, hcase]
    rw [htrace, blockRunTrace_append, htr, hrange]
    rfl
  · cases hvit : m.add_vit_feature
    · have htrace : (forward m x).1 = preEvents ++ (interactionResult m x).1
          ++ [Ev.splitReshapeEv, Ev.finalNorm] := by
        simp [forward, hp, hcase, hvit]
      rw [htrace, blockRunTrace_append, blockRunTrace_append, htr, hrange]
      simp [blockRunTrace, preEvents]
    · have htrace : (forward m x).1 = preEvents ++ (interactionResult m x).1
          ++ [Ev.splitReshapeEv, Ev.tokenResample, Ev.finalNorm] := by
        simp [forward, hp, hcase, hvit]
      rw [htrace, blockRunTrace_append, blockRunTrace_append, htr, hrange]
      simp [blockRunTrace, preEvents]

/-- **C4**: with `add_vit_feature = False`, the four returned feature maps
are exactly the per-level normalizations of the conv-derived levels, and the
token-feature resampling step is never executed. -/
theorem claim_C4_add_vit_feature_false (m : Model Img T) (x : Img)
    (hp : m.stage_wise_prune = false) (hv : m.add_vit_feature = false)
    (c1 c2 c3 c4 : T) (hc : convLevels m x = Except.ok (c1, c2, c3, c4)) :
    (forward m x).2.2 = Except.ok
      [m.norm1 c1, m.norm2 c2, m.norm3 c3, m.norm4 c4] ∧
    Ev.tokenResample ∉ (forward m x).1 := by
  rcases hcase : (interactionResult m x).2.2 with e | st
  · rw [convLevels, hcase] at hc
    simp [Except.map] at hc
  · rw [convLevels, hcase] at hc
    simp only [Except.map] at hc
    have hc' := Except.ok.inj hc
    have hnot : Ev.tokenResample ∉ (interactionResult m x).1 :=
      tokenResample_not_mem_runStages m _ _ _ _ m.interactions
        m.interaction_indexes 0 _
    constructor
    · have hout : (forward m x).2.2 = Except.ok
          [m.norm1 (splitAndReshape m (forwardPre m x) st.2.2.1).1,
           m.norm2 (splitAndReshape m (forwardPre m x) st.2.2.1).2.1,
           m.norm3 (splitAndReshape m (forwardPre m x) st.2.2.1).2.2.1,
           m.norm4 (splitAndReshape m (forwardPre m x) st.2.2.1).2.2.2] := by
        simp [forward, hp, hv, hcase]
      rw [hout, hc']
    · have htrace : (forward m x).1 = preEvents ++ (interactionResult m x).1
          ++ [Ev.splitReshapeEv, Ev.finalNorm] := by
        simp [forward, hp, hv, hcase]
      rw [htrace]
      simp only [List.mem_append, List.mem_cons, List.not_mem_nil]
      rintro ((h | h) | h)
      · simp [preEvents] at h
      · exact hnot h
      · simp at h

/-- **C5**: a forward call on a module whose `stage_wise_prune` flag is true
fails with the unsupported-feature error before any computation: the event
trace is empty, so no interaction stage, spatial-prior forward, or patch
embedding is executed. -/
theorem claim_C5_prune_guard (m : Model Img T) (x : Img)
    (h : m.stage_wise_prune = true) :
    forward m x = ([], [], Except.error FwdErr.stageWisePruneUnsupported) := by
  simp [forward, h]

/-- **C10**: the classification-attention accumulator is initialized to the
scalar `0` before the first interaction stage of every forward call; it is a
per-call local, so a call made after any previous call (which leaves the
module unchanged) again starts its accumulator thread at `0`. -/
theorem claim_C10_cls_attn_zero_init (m : Model Img T) (x xPrev : Img)
    (hp : m.stage_wise_prune = false) :
    (forward m x).2.1.head? = some 0 ∧
    (forward (modelAfterForward m xPrev) x).2.1.head? = some 0 := by
  have h := runStages_attn_head m (forwardPre m x).d1 (forwardPre m x).d2
    (forwardPre m x).H (forwardPre m x).W m.interactions
    m.interaction_indexes 0
    ((forwardPre m x).cls, (forwardPre m x).xt, (forwardPre m x).c, 0)
  have h2 : (forward m x).2.1 = (interactionResult m x).2.1 := by
    rcases hcase : (interactionResult m x).2.2 with e | st
    · simp [forward, hp, hcase]
    · cases hvit : m.add_vit_feature <;> simp [forward, hp, hcase, hvit]
  have hmain : (forward m x).2.1.head? = some 0 := by
    rw [h2]
    exact h
  exact ⟨hmain, hmain⟩

/-! ## Construction (`__init__`, lines 21-65)

`__init__` pops `window_attn` and `window_size` from `kwargs` and discards
them, asserts `kwargs.pop('layer_scale') is False` and
`kwargs.pop('pretrained') is None`, then calls the base constructor and
builds the submodules.  A `pop` on a missing key raises a key error; a failed
assertion raises an assertion error.  Construction is instrumented with a
build-event trace: every error path happens before any module is built. -/

/-- Construction-time build events. -/
inductive BuildEv where
  | superInitEv
  | buildSpm
  | buildInteractions
  | buildUp
  | buildNorms
  | initWeightsEv
  | levelEmbedInitEv
deriving DecidableEq, Repr

/-- Construction-time failures. -/
inductive CtorErr where
  | keyError (k : String)
  | assertFailed (msg : String)
deriving DecidableEq, Repr

/-- Named constructor arguments with their source defaults. -/
structure Config where
  pretrain_size : Nat := 224
  num_heads : Nat := 12
  conv_inplane : Nat := 64
  n_points : Nat := 4
  deform_num_heads : Nat := 6
  init_values : ℚ := 0
  interaction_indexes : List (List Nat) := []
  with_cffn : Bool := true
  cffn_ratio : ℚ := 1 / 4
  deform_ratio : ℚ := 1
  add_vit_feature : Bool := true
  use_extra_extractor : Bool := true

/-- The `**kwargs` dictionary: `none` means the key is absent.  The
`pretrained` value is itself optional because Python distinguishes a present
`pretrained=None` from a missing key.  `rest` is whatever remains for the
base constructor. -/
structure Kwargs where
  window_attn : Option Bool := none
  window_size : Option (Option Nat) := none
  layer_scale : Option Bool := none
  pretrained : Option (Option String) := none
  rest : List (String × String) := []

/-- State established by the base transformer's constructor
(`super().__init__`), consumed as an external collaborator. -/
structure Base (Img T : Type) where
  num_blocks : Nat
  embed_dim : Nat
  drop_path_rate : ℚ
  patch_embed : Img → T × Nat × Nat
  shapeOf : T → Nat × Nat × Nat
  cls_token_expand : Nat → T
  pos_embed_cls : T
  pos_drop : T → T
  prune_ratio : ℚ
  tradeoff : ℚ

/-- External constructors and framework operations used during
construction. -/
structure CtorEnv (Img T : Type) where
  super_init : Nat → List (String × String) → Base Img T
  deform_inputs : Img → T × T
  build_spm : Nat → Nat → (Img → T × T × T × T)
  build_interaction : Nat → Nat → Nat → ℚ → ℚ → Bool → ℚ → ℚ → Bool →
    InteractFn T
  build_up : Nat → (T → T)
  build_norm : Nat → (T → T)
  level_embed_init : Fin 3 → T
  build_pos_resample : Base Img T → Nat → (Nat → Nat → T)
  addT : T → T → T
  cat3 : T → T → T → T
  size1 : T → Nat
  sliceDim1 : T → Nat → Nat → T
  sliceFromDim1 : T → Nat → T
  reshapeSp : T → Nat → Nat → Nat → Nat → T
  interpScale : T → ℚ → T

/-- `__init__` (lines 21-65): pop the two legacy keys, check the two
asserts, then build the module.  Errors happen before any build event. -/
def construct (env : CtorEnv Img T) (cfg : Config) (kw : Kwargs) :
    List BuildEv × Except CtorErr (Model Img T) :=
  match kw.window_attn with
  | none => ([], Except.error (CtorErr.keyError "window_attn"))
  | some _ =>
    match kw.window_size with
    | none => ([], Except.error (CtorErr.keyError "window_size"))
    | some _ =>
      match kw.layer_scale with
      | none => ([], Except.error (CtorErr.keyError "layer_scale"))
      | some true =>
        ([], Except.error (CtorErr.assertFailed
          "Pytorch Better Transformer does not support layer scale"))
      | some false =>
        match kw.pretrained with
        | none => ([], Except.error (CtorErr.keyError "pretrained"))
        | some (some _) =>
          ([], Except.error (CtorErr.assertFailed
            "use load_from instead of pretrained"))
        | some none =>
          let base := env.super_init cfg.num_heads kw.rest
          let n := cfg.interaction_indexes.length
          ([BuildEv.superInitEv, BuildEv.buildSpm, BuildEv.buildInteractions,
            BuildEv.buildUp, BuildEv.buildNorms, BuildEv.initWeightsEv,
            BuildEv.levelEmbedInitEv],
            Except.ok
              { stage_wise_prune := false
                add_vit_feature := cfg.add_vit_feature
                interaction_indexes := cfg.interaction_indexes
                num_block := base.num_blocks
                num_classes := 80
                pretrain_size := (cfg.pretrain_size, cfg.pretrain_size)
                level_embed0 := env.level_embed_init 0
                level_embed1 := env.level_embed_init 1
                level_embed2 := env.level_embed_init 2
                spm := env.build_spm cfg.conv_inplane base.embed_dim
                interactions := (List.range n).map fun i =>
                  env.build_interaction base.embed_dim cfg.deform_num_heads
                    cfg.n_points cfg.init_values base.drop_path_rate
                    cfg.with_cffn cfg.cffn_ratio cfg.deform_ratio
                    (decide (i = n - 1) && cfg.use_extra_extractor)
                up := env.build_up base.embed_dim
                norm1 := env.build_norm base.embed_dim
                norm2 := env.build_norm base.embed_dim
                norm3 := env.build_norm base.embed_dim
                norm4 := env.build_norm base.embed_dim
                deform_inputs := env.deform_inputs
                patch_embed := base.patch_embed
                shapeOf := base.shapeOf
                cls_token_expand := base.cls_token_expand
                pos_embed_cls := base.pos_embed_cls
                pos_drop := base.pos_drop
                pos_resample := env.build_pos_resample base cfg.pretrain_size
                prune_ratio := base.prune_ratio
                tradeoff := base.tradeoff
                addT := env.addT
                cat3 := env.cat3
                size1 := env.size1
                sliceDim1 := env.sliceDim1
                sliceFromDim1 := env.sliceFromDim1
                reshapeSp := env.reshapeSp
                interpScale := env.interpScale })

/-- **C6**: whenever `layer_scale` is not (a present) `False` or `pretrained`
is not (a present) `None`, construction fails before any module is built: the
build trace is empty and the result is an error. -/
theorem claim_C6_ctor_asserts (env : CtorEnv Img T) (cfg : Config)
    (kw : Kwargs)
    (h : kw.layer_scale ≠ some false ∨ kw.pretrained ≠ some none) :
    (construct env cfg kw).1 = [] ∧
    ∃ e, (construct env cfg kw).2 = Except.error e := by
  rcases kw with ⟨wa, ws, ls, pre, rest⟩
  rcases wa with - | wa
  · exact ⟨rfl, _, rfl⟩
  rcases ws with - | ws
  · exact ⟨rfl, _, rfl⟩
  rcases ls with - | (- | -)
  · exact ⟨rfl, _, rfl⟩
  · -- layer_scale = some false: pretrained must be at fault
    rcases pre with - | (- | p)
    · exact ⟨rfl, _, rfl⟩
    · simp at h
    · exact ⟨rfl, _, rfl⟩
  · exact ⟨rfl, _, rfl⟩

/-- **C8**: two construction calls identical except for the values supplied
for the legacy flags `window_attn` and `window_size` produce identical
results — every field of the constructed module and every forward result
agree. -/
theorem claim_C8_legacy_flags_ignored (env : CtorEnv Img T) (cfg : Config)
    (kw : Kwargs) (a a' : Bool) (b b' : Option Nat) :
    construct env cfg
        { kw with window_attn := some a, window_size := some b } =
      construct env cfg
        { kw with window_attn := some a', window_size := some b' } ∧
    ∀ (x : Img),
      Except.map (fun mo => forward mo x)
        (construct env cfg
          { kw with window_attn := some a, window_size := some b }).2 =
      Except.map (fun mo => forward mo x)
        (construct env cfg
          { kw with window_attn := some a', window_size := some b' }).2 := by
  have h : construct env cfg
      { kw with window_attn := some a, window_size := some b } =
      construct env cfg
        { kw with window_attn := some a', window_size := some b' } := rfl
  exact ⟨h, fun x => by rw [h]⟩

/-- **C9 (amended)**: a construction call whose kwargs omit any of the four
keys `window_attn`, `window_size`, `layer_scale`, `pretrained` fails before
any module is built; the failure is a key-lookup error, except when
`pretrained` is the omitted key and `layer_scale` is supplied with a
non-`False` value, in which case the layer-scale assertion fails first. -/
theorem claim_C9_missing_keys (env : CtorEnv Img T) (cfg : Config)
    (kw : Kwargs)
    (h : kw.window_attn = none ∨ kw.window_size = none ∨
      kw.layer_scale = none ∨ kw.pretrained = none) :
    (construct env cfg kw).1 = [] ∧
    ∃ e, (construct env cfg kw).2 = Except.error e ∧
      ((∃ k, e = CtorErr.keyError k) ∨
        (e = CtorErr.assertFailed
            "Pytorch Better Transformer does not support layer scale" ∧
          kw.layer_scale = some true ∧ kw.pretrained = none)) := by
  rcases kw with ⟨wa, ws, ls, pre, rest⟩
  rcases wa with - | wa
  · exact ⟨rfl, _, rfl, Or.inl ⟨_, rfl⟩⟩
  rcases ws with - | ws
  · exact ⟨rfl, _, rfl, Or.inl ⟨_, rfl⟩⟩
  rcases ls with - | (- | -)
  · exact ⟨rfl, _, rfl, Or.inl ⟨_, rfl⟩⟩
  · -- layer_scale = some false
    rcases pre with - | (- | p)
    · exact ⟨rfl, _, rfl, Or.inl ⟨_, rfl⟩⟩
    · simp at h
    · simp at h
  · -- layer_scale = some true: the assertion fires regardless of pretrained
    rcases pre with - | (- | p)
    · exact ⟨rfl, _, rfl, Or.inr ⟨rfl, rfl, rfl⟩⟩
    · simp at h
    · simp at h

/-! ## Concrete instances used to witness the theorems -/

/-- A trivial interaction layer over unit tensors. -/
def unitInteract : InteractFn Unit := fun _ _ _ _ _ _ _ _ _ _ _ _ =>
  ((), (), (), 0)

/-- A module over unit tensors with the given flags, interaction indexes,
block count and stage count. -/
def mkUnitModel (prune vit : Bool) (ii : List (List Nat)) (nb ni : Nat) :
    Model Unit Unit where
  stage_wise_prune := prune
  add_vit_feature := vit
  interaction_indexes := ii
  num_block := nb
  num_classes := 80
  pretrain_size := (224, 224)
  level_embed0 := ()
  level_embed1 := ()
  level_embed2 := ()
  spm := fun _ => ((), (), (), ())
  interactions := List.replicate ni unitInteract
  up := fun _ => ()
  norm1 := fun _ => ()
  norm2 := fun _ => ()
  norm3 := fun _ => ()
  norm4 := fun _ => ()
  deform_inputs := fun _ => ((), ())
  patch_embed := fun _ => ((), 20, 20)
  shapeOf := fun _ => (1, 400, 768)
  cls_token_expand := fun _ => ()
  pos_embed_cls := ()
  pos_drop := fun _ => ()
  pos_resample := fun _ _ => ()
  prune_ratio := 0
  tradeoff := 0
  addT := fun _ _ => ()
  cat3 := fun _ _ _ => ()
  size1 := fun _ => 0
  sliceDim1 := fun _ _ _ => ()
  sliceFromDim1 := fun _ _ => ()
  reshapeSp := fun _ _ _ _ _ => ()
  interpScale := fun _ _ => ()

/-- A module with the valid partition `[[0,1],[2],[3,4,5]]` of 6 blocks. -/
def partitionModel : Model Unit Unit :=
  mkUnitModel false true [[0, 1], [2], [3, 4, 5]] 6 3

/-- A module with `add_vit_feature = false`. -/
def noVitModel : Model Unit Unit := mkUnitModel false false [[0]] 1 1

/-- A module with the `stage_wise_prune` flag set. -/
def pruneModel : Model Unit Unit := mkUnitModel true true [[0]] 1 1

/-- A trivial base-transformer state over unit tensors. -/
def unitBase : Base Unit Unit where
  num_blocks := 6
  embed_dim := 768
  drop_path_rate := 0
  patch_embed := fun _ => ((), 20, 20)
  shapeOf := fun _ => (1, 400, 768)
  cls_token_expand := fun _ => ()
  pos_embed_cls := ()
  pos_drop := fun _ => ()
  prune_ratio := 0
  tradeoff := 0

/-- A trivial constructor environment over unit tensors. -/
def unitCtorEnv : CtorEnv Unit Unit where
  super_init := fun _ _ => unitBase
  deform_inputs := fun _ => ((), ())
  build_spm := fun _ _ _ => ((), (), (), ())
  build_interaction := fun _ _ _ _ _ _ _ _ _ => unitInteract
  build_up := fun _ _ => ()
  build_norm := fun _ _ => ()
  level_embed_init := fun _ => ()
  build_pos_resample := fun _ _ _ _ => ()
  addT := fun _ _ => ()
  cat3 := fun _ _ _ => ()
  size1 := fun _ => 0
  sliceDim1 := fun _ _ _ => ()
  sliceFromDim1 := fun _ _ => ()
  reshapeSp := fun _ _ _ _ _ => ()
  interpScale := fun _ _ => ()

/-- Kwargs supplying `layer_scale=True` with all four keys present. -/
def kwAssert : Kwargs :=
  { window_attn := some false, window_size := some none,
    layer_scale := some true, pretrained := some none }

/-- Kwargs omitting only the `pretrained` key, with `layer_scale=False`. -/
def kwMissing : Kwargs :=
  { window_attn := some false, window_size := some none,
    layer_scale := some false, pretrained := none }

/-- Kwargs omitting only the `pretrained` key, with `layer_scale=True`. -/
def kw9cex : Kwargs :=
  { window_attn := some false, window_size := some none,
    layer_scale := some true, pretrained := none }

/-- Witness for C1 on a concrete 3-stage partition of 6 blocks. -/
theorem claim_C1_interaction_partition_witness :
    partitionModel.stage_wise_prune = false ∧
    partitionModel.interactions.length =
      partitionModel.interaction_indexes.length ∧
    validPartition partitionModel.interaction_indexes
      partitionModel.num_block = true ∧
    (blockRunTrace (forward partitionModel ()).1 =
        List.range partitionModel.num_block ∧
      (partitionModel.interaction_indexes.map stageCount).sum =
        partitionModel.num_block) :=
  ⟨rfl, rfl, by decide,
    claim_C1_interaction_partition partitionModel () rfl rfl (by decide)⟩

/-- Witness for C4 on a concrete module with `add_vit_feature = false`. -/
theorem claim_C4_add_vit_feature_false_witness :
    noVitModel.stage_wise_prune = false ∧
    noVitModel.add_vit_feature = false ∧
    convLevels noVitModel () = Except.ok ((), (), (), ()) ∧
    ((forward noVitModel ()).2.2 = Except.ok
        [noVitModel.norm1 (), noVitModel.norm2 (), noVitModel.norm3 (),
          noVitModel.norm4 ()] ∧
      Ev.tokenResample ∉ (forward noVitModel ()).1) :=
  ⟨rfl, rfl, rfl,
    claim_C4_add_vit_feature_false noVitModel () rfl rfl () () () () rfl⟩

/-- Witness for C5 on a concrete module with `stage_wise_prune = true`. -/
theorem claim_C5_prune_guard_witness :
    pruneModel.stage_wise_prune = true ∧
    forward pruneModel () =
      ([], [], Except.error FwdErr.stageWisePruneUnsupported) :=
  ⟨rfl, claim_C5_prune_guard pruneModel () rfl⟩

/-- Witness for C10 on a concrete module. -/
theorem claim_C10_cls_attn_zero_init_witness :
    noVitModel.stage_wise_prune = false ∧
    ((forward noVitModel ()).2.1.head? = some 0 ∧
      (forward (modelAfterForward noVitModel ()) ()).2.1.head? = some 0) :=
  ⟨rfl, claim_C10_cls_attn_zero_init noVitModel () () rfl⟩

/-- Witness for C6 with `layer_scale=True` supplied. -/
theorem claim_C6_ctor_asserts_witness :
    (kwAssert.layer_scale ≠ some false ∨
      kwAssert.pretrained ≠ some none) ∧
    ((construct unitCtorEnv {} kwAssert).1 = [] ∧
      ∃ e, (construct unitCtorEnv {} kwAssert).2 = Except.error e) :=
  ⟨Or.inl (by decide),
    claim_C6_ctor_asserts unitCtorEnv {} kwAssert (Or.inl (by decide))⟩

/-- Witness for the amended C9 with the `pretrained` key omitted and
`layer_scale=False`. -/
theorem claim_C9_missing_keys_witness :
    (kwMissing.window_attn = none ∨ kwMissing.window_size = none ∨
      kwMissing.layer_scale = none ∨ kwMissing.pretrained = none) ∧
    ((construct unitCtorEnv {} kwMissing).1 = [] ∧
      ∃ e, (construct unitCtorEnv {} kwMissing).2 = Except.error e ∧
        ((∃ k, e = CtorErr.keyError k) ∨
          (e = CtorErr.assertFailed
              "Pytorch Better Transformer does not support layer scale" ∧
            kwMissing.layer_scale = some true ∧
            kwMissing.pretrained = none))) :=
  ⟨Or.inr (Or.inr (Or.inr rfl)),
    claim_C9_missing_keys unitCtorEnv {} kwMissing
      (Or.inr (Or.inr (Or.inr rfl)))⟩

/-- Counterexample for C9 as stated: omitting only the `pretrained` key while
supplying `layer_scale=True` makes construction fail with the layer-scale
assertion error, not a key-lookup error. -/
theorem claim_C9_counterexample :
    kw9cex.pretrained = none ∧
    (construct unitCtorEnv {} kw9cex).2 = Except.error (CtorErr.assertFailed
      "Pytorch Better Transformer does not support layer scale") ∧
    ∀ k, (construct unitCtorEnv {} kw9cex).2 ≠
      Except.error (CtorErr.keyError k) := by
  refine ⟨rfl, rfl, ?_⟩
  intro k h
  have hc : (construct unitCtorEnv {} kw9cex).2 =
      Except.error (CtorErr.assertFailed
        "Pytorch Better Transformer does not support layer scale") := rfl
  rw [hc] at h
  exact CtorErr.noConfusion (Except.error.inj h)

end EvoViT
